import Mathlib

/-!
Shallow embedding of the page-navigation core of the book-portfolio
application (`src/app.js`, class `BookPortfolio`).

DOM class lists on page elements are modelled as boolean fields of `PageEl`
(`flipping`/`flipped`/`unflipping` and the `revealed` marker of each
`.reveal-item` fragment).  `setTimeout` callbacks are modelled as explicit
`TimerEvent`s queued in `BookState.pending`; firing the head of the queue
(`fireFirst`) executes the callback body.  Decorative fire-and-forget side
effects are modelled by counters (`soundsPlayed`, `dustSpawned`,
`revealTimersScheduled`): the count records how many times the effect was
actually emitted.  Purely textual DOM updates (page-indicator label,
aria announcement, progress-bar width) have no state read back by the
program and are not modelled; the button-disabled flags and the
table-of-contents active index are.
-/

/-- JavaScript-style list indexing: `l[i]` is `undefined` (here `none`)
for a negative index or an index at or beyond the length. -/
def listGetN {α : Type} : List α → Nat → Option α
  | [], _ => none
  | x :: _, 0 => some x
  | _ :: xs, n + 1 => listGetN xs n

/-- Integer-index variant of `listGetN`, matching `this.pages[i]` where `i`
is a JavaScript number. -/
def listGetI {α : Type} (l : List α) (i : Int) : Option α :=
  if i < 0 then none else listGetN l i.toNat

/-- Apply `f` to the element at position `n`, leaving the list unchanged
when the index is out of range. -/
def modifyNth {α : Type} (f : α → α) : List α → Nat → List α
  | [], _ => []
  | x :: xs, 0 => f x :: xs
  | x :: xs, n + 1 => x :: modifyNth f xs n

/-- Integer-index variant of `modifyNth`. -/
def modifyAtI {α : Type} (l : List α) (i : Int) (f : α → α) : List α :=
  if i < 0 then l else modifyNth f l i.toNat

/-- Map with the element index, starting the count at `k`. -/
def mapWithIdx {α : Type} (f : Nat → α → α) : Nat → List α → List α
  | _, [] => []
  | k, x :: xs => f k x :: mapWithIdx f (k + 1) xs

/-- One `.page` element: its turn-state class list and the `revealed`
markers of its `.reveal-item` fragments. -/
structure PageEl where
  flipping : Bool
  flipped : Bool
  unflipping : Bool
  revealItems : List Bool
deriving Repr, DecidableEq

/-- A scheduled `setTimeout` callback of the navigation core, with the data
the closure captured and the delay in milliseconds.  `nextDone`/`prevDone`
are the completion callbacks of `nextPage`/`prevPage` (capturing the page
element they touch, by index); `goToReveal` is the reveal callback scheduled
by `goToPage`. -/
inductive TimerEvent where
  | nextDone (capturedIdx : Int) (delay : Nat)
  | prevDone (capturedIdx : Int) (delay : Nat)
  | goToReveal (delay : Nat)
deriving Repr, DecidableEq

/-- The mutable state of a `BookPortfolio` instance (`src/app.js`,
constructor lines 341-370), together with the modelled DOM state and the
side-effect counters.  `totalPages` is not stored: the constructor sets it
to `this.pages.length` once and no operation changes the page collection,
so it is exposed as the derived value `BookState.totalPages`. -/
structure BookState where
  currentPage : Int
  isAnimating : Bool
  soundEnabled : Bool
  animationsEnabled : Bool
  pages : List PageEl
  pageFlipSoundPresent : Bool
  soundsPlayed : Nat
  dustSpawned : Nat
  revealTimersScheduled : Nat
  prevBtnDisabled : Bool
  nextBtnDisabled : Bool
  tocActive : Int
  celebrationShown : Bool
  pending : List TimerEvent
deriving Repr, DecidableEq

/-- Mirrors `this.totalPages = this.pages.length`. -/
def BookState.totalPages (s : BookState) : Int := (s.pages.length : Int)

/-- Mirrors `playPageFlipSound()` (app.js 1000-1007): the audio element is
played only when `soundEnabled` is set and the element exists; a play is
counted in `soundsPlayed`.  The swallowed promise rejection has no state
effect. -/
def playPageFlipSound (s : BookState) : BookState :=
  if s.soundEnabled = true ∧ s.pageFlipSoundPresent = true then
    { s with soundsPlayed := s.soundsPlayed + 1 }
  else s

/-- Mirrors `toggleSound()` (app.js 1009-1012). -/
def toggleSound (s : BookState) : BookState :=
  { s with soundEnabled := !s.soundEnabled }

/-- Mirrors `toggleAnimations()` (app.js 713-718); the `localStorage` write
and body-class toggle have no effect on the navigation state. -/
def toggleAnimations (s : BookState) : BookState :=
  { s with animationsEnabled := !s.animationsEnabled }

/-- Mirrors `createDustParticles(pageEl)` (app.js 1055-1084): an early
return when animations are disabled, otherwise 15 dust particles are
spawned (counted in `dustSpawned`; each removes itself after 1s). -/
def createDustParticles (s : BookState) : BookState :=
  if s.animationsEnabled = false then s
  else { s with dustSpawned := s.dustSpawned + 15 }

/-- Mirrors `checkCompletion()` (app.js 877-891): on the last page, a
one-shot celebration flag is set (the badge reveal and particle burst are
decorative). -/
def checkCompletion (s : BookState) : BookState :=
  if s.currentPage = s.totalPages - 1 ∧ s.celebrationShown = false then
    { s with celebrationShown := true }
  else s

/-- Mirrors `updateNavigation()` (app.js 839-855): button disabled flags
from `currentPage`, then the completion check.  The page-indicator text,
progress width and aria announcement are write-only DOM text, not
modelled. -/
def updateNavigation (s : BookState) : BookState :=
  checkCompletion
    { s with
      prevBtnDisabled := decide (s.currentPage ≤ 0)
      nextBtnDisabled := decide (s.totalPages - 1 ≤ s.currentPage) }

/-- Mirrors `updateTOC()` (app.js 931-935): the `active` class ends up
exactly on the entry whose index equals `currentPage`. -/
def updateTOC (s : BookState) : BookState :=
  { s with tocActive := s.currentPage }

/-- Mirrors `revealPageContent(pageIndex)` (app.js 972-992): look the page
up (`undefined` lookup returns immediately); clear every fragment's
`revealed` marker synchronously; then schedule one staggered timer per
fragment (delay `50 + i * 100`), counted in `revealTimersScheduled`.  Each
of those timers only re-adds the `revealed` marker of its own fragment. -/
def revealPageContent (s : BookState) (pageIndex : Int) : BookState :=
  match listGetI s.pages pageIndex with
  | none => s
  | some page =>
      { s with
        pages := modifyAtI s.pages pageIndex
          (fun p => { p with revealItems := p.revealItems.map (fun _ => false) })
        revealTimersScheduled := s.revealTimersScheduled + page.revealItems.length }

/-- Mirrors `nextPage()` (app.js 754-780): guard on `isAnimating` or last
page; set `isAnimating`; attempt the flip sound; add `flipping` and
`flipped` to the current page element; dust burst; schedule the completion
callback with delay 800 (0 when animations are disabled). -/
def nextPage (s : BookState) : BookState :=
  if s.isAnimating = true ∨ s.totalPages - 1 ≤ s.currentPage then s
  else
    let s1 := playPageFlipSound { s with isAnimating := true }
    let idx := s1.currentPage
    let s2 := { s1 with
      pages := modifyAtI s1.pages idx
        (fun p => { p with flipping := true, flipped := true }) }
    let s3 := createDustParticles s2
    let delay : Nat := if s3.animationsEnabled = true then 800 else 0
    { s3 with pending := s3.pending ++ [TimerEvent.nextDone idx delay] }

/-- Body of the `setTimeout` callback in `nextPage()` (app.js 770-779):
remove `flipping` from the captured element, increment `currentPage`,
update dependent views, reveal the new page, clear `isAnimating`. -/
def fireNextDone (s : BookState) (capturedIdx : Int) : BookState :=
  let s1 := { s with
    pages := modifyAtI s.pages capturedIdx (fun p => { p with flipping := false }) }
  let s2 := { s1 with currentPage := s1.currentPage + 1 }
  let s3 := updateTOC (updateNavigation s2)
  let s4 := revealPageContent s3 s3.currentPage
  { s4 with isAnimating := false }

/-- Mirrors `prevPage()` (app.js 782-808): guard on `isAnimating` or first
page; set `isAnimating`; attempt the flip sound; decrement `currentPage`
synchronously; add `unflipping` and remove `flipped` on the page that is
becoming current; dust burst; schedule the completion callback. -/
def prevPage (s : BookState) : BookState :=
  if s.isAnimating = true ∨ s.currentPage ≤ 0 then s
  else
    let s1 := playPageFlipSound { s with isAnimating := true }
    let s2 := { s1 with currentPage := s1.currentPage - 1 }
    let idx := s2.currentPage
    let s3 := { s2 with
      pages := modifyAtI s2.pages idx
        (fun p => { p with unflipping := true, flipped := false }) }
    let s4 := createDustParticles s3
    let delay : Nat := if s4.animationsEnabled = true then 800 else 0
    { s4 with pending := s4.pending ++ [TimerEvent.prevDone idx delay] }

/-- Body of the `setTimeout` callback in `prevPage()` (app.js 799-807). -/
def firePrevDone (s : BookState) (capturedIdx : Int) : BookState :=
  let s1 := { s with
    pages := modifyAtI s.pages capturedIdx (fun p => { p with unflipping := false }) }
  let s2 := updateTOC (updateNavigation s1)
  let s3 := revealPageContent s2 s2.currentPage
  { s3 with isAnimating := false }

/-- Set `flipped := v` on every page with index `i` in `lo ≤ i < hi`,
mirroring the two batch loops of `goToPage` (app.js 817-827). -/
def setFlippedRange (pages : List PageEl) (lo hi : Int) (v : Bool) : List PageEl :=
  mapWithIdx
    (fun i p => if lo ≤ (i : Int) ∧ (i : Int) < hi then { p with flipped := v } else p)
    0 pages

/-- Mirrors `goToPage(targetPage)` (app.js 810-837): guards; batch flip of
the affected range (forward: add `flipped` on `[currentPage, target)`;
backward: remove `flipped` on `[target, currentPage)`); flip sound; commit
`currentPage` synchronously; update dependent views; schedule a single
400ms reveal callback.  Note the source never touches `isAnimating`
here. -/
def goToPage (s : BookState) (targetPage : Int) : BookState :=
  if s.isAnimating = true ∨ targetPage = s.currentPage then s
  else if targetPage < 0 ∨ s.totalPages ≤ targetPage then s
  else
    let s1 :=
      if s.currentPage < targetPage then
        { s with pages := setFlippedRange s.pages s.currentPage targetPage true }
      else
        { s with pages := setFlippedRange s.pages targetPage s.currentPage false }
    let s2 := playPageFlipSound s1
    let s3 := { s2 with currentPage := targetPage }
    let s4 := updateTOC (updateNavigation s3)
    { s4 with pending := s4.pending ++ [TimerEvent.goToReveal 400] }

/-- Body of the `setTimeout` callback in `goToPage()` (app.js 834-836):
reveal the page that is current when the timer fires. -/
def fireGoToReveal (s : BookState) : BookState :=
  revealPageContent s s.currentPage

/-- Execute a scheduled callback body. -/
def fireEvent (s : BookState) : TimerEvent → BookState
  | TimerEvent.nextDone idx _ => fireNextDone s idx
  | TimerEvent.prevDone idx _ => firePrevDone s idx
  | TimerEvent.goToReveal _ => fireGoToReveal s

/-- Fire the earliest pending timer, if any.  In every scenario considered
here the queue is ordered by delay, so head-first firing matches the event
loop. -/
def fireFirst (s : BookState) : BookState :=
  match s.pending with
  | [] => s
  | ev :: rest => fireEvent { s with pending := rest } ev

/-- A navigation command emitted by the gesture layer. -/
inductive NavCommand where
  | next
  | previous
deriving Repr, DecidableEq

/-- The data of a wheel event that `handleScroll` (app.js 698-711) can
observe: whether `e.target.closest('.page-content')` finds a scrollable
content region, the scroll metrics of that region, and the wheel delta. -/
structure WheelEventRec where
  deltaY : Int
  targetInPageContent : Bool
  contentScrollTop : Int
  contentScrollHeight : Int
  contentClientHeight : Int
deriving Repr, DecidableEq

/-- Mirrors `handleScroll(e)` (app.js 698-711).  The body is two early
returns: a wheel event whose target is inside `.page-content` is left to
native scrolling, and every other wheel event is ignored.  No branch
mutates state or emits a navigation command. -/
def handleScroll (s : BookState) (e : WheelEventRec) :
    BookState × Option NavCommand :=
  if e.targetInPageContent = true then
    (s, none)
  else
    (s, none)

/-- The state a freshly constructed `BookPortfolio` holds (app.js
356-366): page 0, not animating, sound off by default, animations on. -/
def initState (pages : List PageEl) (soundPresent : Bool) : BookState :=
  { currentPage := 0
    isAnimating := false
    soundEnabled := false
    animationsEnabled := true
    pages := pages
    pageFlipSoundPresent := soundPresent
    soundsPlayed := 0
    dustSpawned := 0
    revealTimersScheduled := 0
    prevBtnDisabled := false
    nextBtnDisabled := false
    tocActive := 0
    celebrationShown := false
    pending := [] }

/-- A single-step navigation request, as in the spec's testable
properties. -/
inductive NavOp where
  | next
  | prev
deriving Repr, DecidableEq

/-- Run one accepted-or-rejected request to completion: the synchronous
entry point followed by its completion timer (a rejected request schedules
nothing, so firing is the identity there). -/
def runNavOp (s : BookState) : NavOp → BookState
  | NavOp.next => fireFirst (nextPage s)
  | NavOp.prev => fireFirst (prevPage s)

/-- Run a sequence of requests, each to completion. -/
def runNavOps (s : BookState) (ops : List NavOp) : BookState :=
  ops.foldl runNavOp s

/-- An event processed by the single UI thread: a navigation entry point,
a pending-timer expiry, or one of the user toggles. -/
inductive UiEvent where
  | next
  | prev
  | goTo (n : Int)
  | fireTimer
  | soundToggle
  | animToggle
deriving Repr, DecidableEq

/-- Dispatch one UI event. -/
def stepEvent (s : BookState) : UiEvent → BookState
  | UiEvent.next => nextPage s
  | UiEvent.prev => prevPage s
  | UiEvent.goTo n => goToPage s n
  | UiEvent.fireTimer => fireFirst s
  | UiEvent.soundToggle => toggleSound s
  | UiEvent.animToggle => toggleAnimations s

/-- Run a sequence of UI events. -/
def runEvents (s : BookState) (evs : List UiEvent) : BookState :=
  evs.foldl stepEvent s

/-- Recognizer for the sound toggle event. -/
def isSoundToggle : UiEvent → Bool
  | UiEvent.soundToggle => true
  | _ => false

/-- Number of sound toggles in an event sequence. -/
def countSoundToggles (evs : List UiEvent) : Nat :=
  (evs.filter isSoundToggle).length

/-- A page element with no turn classes and two unrevealed fragments, for
concrete witnesses. -/
def blankPage : PageEl :=
  { flipping := false, flipped := false, unflipping := false
    revealItems := [false, false] }

/-- A freshly loaded six-page book (the page count of the deployed site),
for concrete witnesses. -/
def demoState : BookState :=
  initState [blankPage, blankPage, blankPage, blankPage, blankPage, blankPage] true

/-- The six-page book with a transition in flight, for concrete
witnesses. -/
def busyState : BookState :=
  { demoState with isAnimating := true }

/-- The six-page book with animations turned off, for concrete
witnesses. -/
def quietState : BookState :=
  { demoState with animationsEnabled := false }

/-- The six-page book resting on page 2, for concrete witnesses. -/
def midState : BookState :=
  { demoState with currentPage := 2 }

/-- A wheel event scrolling down inside a page's content region whose
scroll position has already reached the bottom: a qualifying
boundary-arrival event in the spec's terms. -/
def wheelAtBottom : WheelEventRec :=
  { deltaY := 120, targetInPageContent := true
    contentScrollTop := 500, contentScrollHeight := 800, contentClientHeight := 300 }

/-! Basic lemmas about the list helpers. -/

@[simp] theorem modifyNth_length {α : Type} (f : α → α) (l : List α) (n : Nat) :
    (modifyNth f l n).length = l.length := by
  induction l generalizing n with
  | nil => rfl
  | cons x xs ih =>
    cases n with
    | zero => rfl
    | succ m => simp [modifyNth, ih]

@[simp] theorem modifyAtI_length {α : Type} (l : List α) (i : Int) (f : α → α) :
    (modifyAtI l i f).length = l.length := by
  unfold modifyAtI
  split <;> simp

@[simp] theorem mapWithIdx_length {α : Type} (f : Nat → α → α) (k : Nat) (l : List α) :
    (mapWithIdx f k l).length = l.length := by
  induction l generalizing k with
  | nil => rfl
  | cons x xs ih => simp [mapWithIdx, ih]

@[simp] theorem setFlippedRange_length (pages : List PageEl) (lo hi : Int) (v : Bool) :
    (setFlippedRange pages lo hi v).length = pages.length := by
  simp [setFlippedRange]

theorem listGetN_modifyNth_self {α : Type} (f : α → α) (l : List α) (n : Nat) :
    listGetN (modifyNth f l n) n = (listGetN l n).map f := by
  induction l generalizing n with
  | nil => rfl
  | cons x xs ih =>
    cases n with
    | zero => rfl
    | succ m => simpa [modifyNth, listGetN] using ih m

theorem listGetN_modifyNth_ne {α : Type} (f : α → α) (l : List α) {m n : Nat}
    (h : m ≠ n) : listGetN (modifyNth f l n) m = listGetN l m := by
  induction l generalizing m n with
  | nil => rfl
  | cons x xs ih =>
    cases n with
    | zero =>
      cases m with
      | zero => exact absurd rfl h
      | succ m2 => rfl
    | succ n2 =>
      cases m with
      | zero => rfl
      | succ m2 =>
        simpa [modifyNth, listGetN] using ih (fun hc => h (by omega))

theorem listGetN_mapWithIdx {α : Type} (f : Nat → α → α) (k : Nat) (l : List α)
    (n : Nat) : listGetN (mapWithIdx f k l) n = (listGetN l n).map (f (k + n)) := by
  induction l generalizing k n with
  | nil => rfl
  | cons x xs ih =>
    cases n with
    | zero => rfl
    | succ m =>
      have hk : k + (m + 1) = (k + 1) + m := by omega
      simpa [mapWithIdx, listGetN, hk] using ih (k + 1) m

theorem listGetN_isSome {α : Type} (l : List α) (n : Nat) (h : n < l.length) :
    (listGetN l n).isSome = true := by
  induction l generalizing n with
  | nil => simp at h
  | cons x xs ih =>
    cases n with
    | zero => rfl
    | succ m => exact ih m (by simpa using h)

theorem listGetN_none_of_le {α : Type} (l : List α) (n : Nat) (h : l.length ≤ n) :
    listGetN l n = none := by
  induction l generalizing n with
  | nil => rfl
  | cons x xs ih =>
    cases n with
    | zero => simp at h
    | succ m => exact ih m (by simpa using h)

theorem listGetI_none_of_out {α : Type} (l : List α) (i : Int)
    (h : i < 0 ∨ (l.length : Int) ≤ i) : listGetI l i = none := by
  unfold listGetI
  split
  · rfl
  · rename_i hneg
    exact listGetN_none_of_le l i.toNat (by omega)

theorem listGetI_modifyAtI_self {α : Type} (l : List α) (i : Int) (f : α → α) :
    listGetI (modifyAtI l i f) i = (listGetI l i).map f := by
  unfold modifyAtI listGetI
  split
  · simp [*]
  · simp [listGetN_modifyNth_self, *]

theorem listGetI_modifyAtI_ne {α : Type} (l : List α) (f : α → α) {i j : Int}
    (h : i ≠ j) : listGetI (modifyAtI l i f) j = listGetI l j := by
  unfold modifyAtI listGetI
  by_cases hi : i < 0
  · simp [hi]
  · by_cases hj : j < 0
    · simp [hi, hj]
    · have : j.toNat ≠ i.toNat := by omega
      simp [hi, hj, listGetN_modifyNth_ne _ _ this]

theorem listGetI_setFlippedRange (pages : List PageEl) (lo hi : Int) (v : Bool)
    (i : Int) :
    listGetI (setFlippedRange pages lo hi v) i
      = (listGetI pages i).map
          (fun p => if lo ≤ i ∧ i < hi then { p with flipped := v } else p) := by
  unfold listGetI setFlippedRange
  by_cases hneg : i < 0
  · simp [hneg]
  · have hcast : ((0 + i.toNat : Nat) : Int) = i := by omega
    simp only [hneg, if_false, listGetN_mapWithIdx, hcast]

/-! Characterizations of the leaf operations as single record updates. -/

@[simp] theorem playPageFlipSound_eq (s : BookState) :
    playPageFlipSound s =
      { s with soundsPlayed :=
          if s.soundEnabled = true ∧ s.pageFlipSoundPresent = true then
            s.soundsPlayed + 1
          else s.soundsPlayed } := by
  unfold playPageFlipSound
  split <;> simp [*]

@[simp] theorem createDustParticles_eq (s : BookState) :
    createDustParticles s =
      { s with dustSpawned :=
          if s.animationsEnabled = true then s.dustSpawned + 15
          else s.dustSpawned } := by
  unfold createDustParticles
  by_cases h : s.animationsEnabled = true
  · rw [if_neg (by simp [h]), if_pos h]
  · rw [if_pos (by revert h; cases s.animationsEnabled <;> simp), if_neg h]

@[simp] theorem checkCompletion_eq (s : BookState) :
    checkCompletion s =
      { s with celebrationShown :=
          if s.currentPage = s.totalPages - 1 ∧ s.celebrationShown = false then true
          else s.celebrationShown } := by
  unfold checkCompletion
  split <;> simp [*]

@[simp] theorem updateNavigation_eq (s : BookState) :
    updateNavigation s =
      { s with
        prevBtnDisabled := decide (s.currentPage ≤ 0)
        nextBtnDisabled := decide (s.totalPages - 1 ≤ s.currentPage)
        celebrationShown :=
          if s.currentPage = s.totalPages - 1 ∧ s.celebrationShown = false then true
          else s.celebrationShown } := by
  unfold updateNavigation
  rw [checkCompletion_eq]
  rfl

/-! Projection lemmas for `revealPageContent`: only `pages` (same length)
and the reveal-timer counter change. -/

@[simp] theorem revealPageContent_currentPage (s : BookState) (i : Int) :
    (revealPageContent s i).currentPage = s.currentPage := by
  unfold revealPageContent; split <;> rfl

@[simp] theorem revealPageContent_isAnimating (s : BookState) (i : Int) :
    (revealPageContent s i).isAnimating = s.isAnimating := by
  unfold revealPageContent; split <;> rfl

@[simp] theorem revealPageContent_pending (s : BookState) (i : Int) :
    (revealPageContent s i).pending = s.pending := by
  unfold revealPageContent; split <;> rfl

@[simp] theorem revealPageContent_soundEnabled (s : BookState) (i : Int) :
    (revealPageContent s i).soundEnabled = s.soundEnabled := by
  unfold revealPageContent; split <;> rfl

@[simp] theorem revealPageContent_soundsPlayed (s : BookState) (i : Int) :
    (revealPageContent s i).soundsPlayed = s.soundsPlayed := by
  unfold revealPageContent; split <;> rfl

@[simp] theorem revealPageContent_animationsEnabled (s : BookState) (i : Int) :
    (revealPageContent s i).animationsEnabled = s.animationsEnabled := by
  unfold revealPageContent; split <;> rfl

@[simp] theorem revealPageContent_dustSpawned (s : BookState) (i : Int) :
    (revealPageContent s i).dustSpawned = s.dustSpawned := by
  unfold revealPageContent; split <;> rfl

@[simp] theorem revealPageContent_pageFlipSoundPresent (s : BookState) (i : Int) :
    (revealPageContent s i).pageFlipSoundPresent = s.pageFlipSoundPresent := by
  unfold revealPageContent; split <;> rfl

@[simp] theorem revealPageContent_pagesLength (s : BookState) (i : Int) :
    (revealPageContent s i).pages.length = s.pages.length := by
  unfold revealPageContent; split <;> simp

theorem revealPageContent_lookup_flipped (s : BookState) (j i : Int) :
    (listGetI (revealPageContent s j).pages i).map PageEl.flipped
      = (listGetI s.pages i).map PageEl.flipped := by
  unfold revealPageContent
  split
  · rfl
  · by_cases hij : j = i
    · subst hij
      rw [show ({ s with
            pages := modifyAtI s.pages j
              (fun p => { p with revealItems := p.revealItems.map (fun _ => false) }),
            revealTimersScheduled := _ } : BookState).pages
          = modifyAtI s.pages j
              (fun p => { p with revealItems := p.revealItems.map (fun _ => false) })
          from rfl]
      rw [listGetI_modifyAtI_self]
      cases listGetI s.pages j <;> rfl
    · simp only [listGetI_modifyAtI_ne _ _ hij]

theorem revealPageContent_lookup_unflipping (s : BookState) (j i : Int) :
    (listGetI (revealPageContent s j).pages i).map PageEl.unflipping
      = (listGetI s.pages i).map PageEl.unflipping := by
  unfold revealPageContent
  split
  · rfl
  · by_cases hij : j = i
    · subst hij
      rw [show ({ s with
            pages := modifyAtI s.pages j
              (fun p => { p with revealItems := p.revealItems.map (fun _ => false) }),
            revealTimersScheduled := _ } : BookState).pages
          = modifyAtI s.pages j
              (fun p => { p with revealItems := p.revealItems.map (fun _ => false) })
          from rfl]
      rw [listGetI_modifyAtI_self]
      cases listGetI s.pages j <;> rfl
    · simp only [listGetI_modifyAtI_ne _ _ hij]

/-! Guard lemmas: rejected requests return the state unchanged. -/

theorem nextPage_rejected (s : BookState)
    (h : s.isAnimating = true ∨ s.totalPages - 1 ≤ s.currentPage) :
    nextPage s = s := by
  unfold nextPage
  rw [if_pos h]

theorem prevPage_rejected (s : BookState)
    (h : s.isAnimating = true ∨ s.currentPage ≤ 0) :
    prevPage s = s := by
  unfold prevPage
  rw [if_pos h]

theorem goToPage_rejected_guard (s : BookState) (n : Int)
    (h : s.isAnimating = true ∨ n = s.currentPage) :
    goToPage s n = s := by
  unfold goToPage
  rw [if_pos h]

theorem goToPage_rejected_range (s : BookState) (n : Int)
    (h2 : n < 0 ∨ s.totalPages ≤ n) :
    goToPage s n = s := by
  unfold goToPage
  by_cases h1 : s.isAnimating = true ∨ n = s.currentPage
  · rw [if_pos h1]
  · rw [if_neg h1, if_pos h2]

theorem fireFirst_empty (s : BookState) (h : s.pending = []) :
    fireFirst s = s := by
  unfold fireFirst
  split
  · rfl
  · rename_i ev rest heq
    rw [h] at heq
    exact absurd heq (by simp)

/-! Characterizations of the accepted synchronous phases. -/

theorem nextPage_eq_accepted (s : BookState) (hA : s.isAnimating = false)
    (hc : s.currentPage < s.totalPages - 1) :
    nextPage s = { s with
      isAnimating := true
      soundsPlayed :=
        if s.soundEnabled = true ∧ s.pageFlipSoundPresent = true then
          s.soundsPlayed + 1
        else s.soundsPlayed
      pages := modifyAtI s.pages s.currentPage
        (fun p => { p with flipping := true, flipped := true })
      dustSpawned :=
        if s.animationsEnabled = true then s.dustSpawned + 15 else s.dustSpawned
      pending := s.pending ++
        [TimerEvent.nextDone s.currentPage
          (if s.animationsEnabled = true then 800 else 0)] } := by
  have hg : ¬ (s.isAnimating = true ∨ s.totalPages - 1 ≤ s.currentPage) := by
    intro h
    rcases h with h | h
    · simp [hA] at h
    · omega
  unfold nextPage
  rw [if_neg hg]
  simp only [playPageFlipSound_eq, createDustParticles_eq]

theorem prevPage_eq_accepted (s : BookState) (hA : s.isAnimating = false)
    (h0 : 0 < s.currentPage) :
    prevPage s = { s with
      isAnimating := true
      soundsPlayed :=
        if s.soundEnabled = true ∧ s.pageFlipSoundPresent = true then
          s.soundsPlayed + 1
        else s.soundsPlayed
      currentPage := s.currentPage - 1
      pages := modifyAtI s.pages (s.currentPage - 1)
        (fun p => { p with unflipping := true, flipped := false })
      dustSpawned :=
        if s.animationsEnabled = true then s.dustSpawned + 15 else s.dustSpawned
      pending := s.pending ++
        [TimerEvent.prevDone (s.currentPage - 1)
          (if s.animationsEnabled = true then 800 else 0)] } := by
  have hg : ¬ (s.isAnimating = true ∨ s.currentPage ≤ 0) := by
    intro h
    rcases h with h | h
    · simp [hA] at h
    · omega
  unfold prevPage
  rw [if_neg hg]
  simp only [playPageFlipSound_eq, createDustParticles_eq]

/-! Projection lemmas for the completion callbacks. -/

@[simp] theorem fireNextDone_currentPage (s : BookState) (idx : Int) :
    (fireNextDone s idx).currentPage = s.currentPage + 1 := by
  unfold fireNextDone
  simp [updateTOC]

@[simp] theorem fireNextDone_isAnimating (s : BookState) (idx : Int) :
    (fireNextDone s idx).isAnimating = false := rfl

@[simp] theorem fireNextDone_pending (s : BookState) (idx : Int) :
    (fireNextDone s idx).pending = s.pending := by
  unfold fireNextDone
  simp [updateTOC]

@[simp] theorem fireNextDone_pagesLength (s : BookState) (idx : Int) :
    (fireNextDone s idx).pages.length = s.pages.length := by
  unfold fireNextDone
  simp [updateTOC]

@[simp] theorem fireNextDone_soundEnabled (s : BookState) (idx : Int) :
    (fireNextDone s idx).soundEnabled = s.soundEnabled := by
  unfold fireNextDone
  simp [updateTOC]

@[simp] theorem fireNextDone_soundsPlayed (s : BookState) (idx : Int) :
    (fireNextDone s idx).soundsPlayed = s.soundsPlayed := by
  unfold fireNextDone
  simp [updateTOC]

@[simp] theorem fireNextDone_animationsEnabled (s : BookState) (idx : Int) :
    (fireNextDone s idx).animationsEnabled = s.animationsEnabled := by
  unfold fireNextDone
  simp [updateTOC]

@[simp] theorem fireNextDone_dustSpawned (s : BookState) (idx : Int) :
    (fireNextDone s idx).dustSpawned = s.dustSpawned := by
  unfold fireNextDone
  simp [updateTOC]

@[simp] theorem fireNextDone_pageFlipSoundPresent (s : BookState) (idx : Int) :
    (fireNextDone s idx).pageFlipSoundPresent = s.pageFlipSoundPresent := by
  unfold fireNextDone
  simp [updateTOC]

@[simp] theorem firePrevDone_currentPage (s : BookState) (idx : Int) :
    (firePrevDone s idx).currentPage = s.currentPage := by
  unfold firePrevDone
  simp [updateTOC]

@[simp] theorem firePrevDone_isAnimating (s : BookState) (idx : Int) :
    (firePrevDone s idx).isAnimating = false := rfl

@[simp] theorem firePrevDone_pending (s : BookState) (idx : Int) :
    (firePrevDone s idx).pending = s.pending := by
  unfold firePrevDone
  simp [updateTOC]

@[simp] theorem firePrevDone_pagesLength (s : BookState) (idx : Int) :
    (firePrevDone s idx).pages.length = s.pages.length := by
  unfold firePrevDone
  simp [updateTOC]

@[simp] theorem firePrevDone_soundEnabled (s : BookState) (idx : Int) :
    (firePrevDone s idx).soundEnabled = s.soundEnabled := by
  unfold firePrevDone
  simp [updateTOC]

@[simp] theorem firePrevDone_soundsPlayed (s : BookState) (idx : Int) :
    (firePrevDone s idx).soundsPlayed = s.soundsPlayed := by
  unfold firePrevDone
  simp [updateTOC]

@[simp] theorem firePrevDone_animationsEnabled (s : BookState) (idx : Int) :
    (firePrevDone s idx).animationsEnabled = s.animationsEnabled := by
  unfold firePrevDone
  simp [updateTOC]

@[simp] theorem firePrevDone_dustSpawned (s : BookState) (idx : Int) :
    (firePrevDone s idx).dustSpawned = s.dustSpawned := by
  unfold firePrevDone
  simp [updateTOC]

/-! Projections of an accepted `goToPage`. -/

theorem goToPage_accepted_proj (s : BookState) (n : Int)
    (hA : s.isAnimating = false) (hne : n ≠ s.currentPage)
    (h0 : 0 ≤ n) (h1 : n < s.totalPages) :
    (goToPage s n).currentPage = n
  ∧ (goToPage s n).isAnimating = false
  ∧ (goToPage s n).pending = s.pending ++ [TimerEvent.goToReveal 400]
  ∧ (goToPage s n).pages.length = s.pages.length
  ∧ (goToPage s n).soundEnabled = s.soundEnabled
  ∧ (goToPage s n).animationsEnabled = s.animationsEnabled
  ∧ (goToPage s n).dustSpawned = s.dustSpawned := by
  have hg1 : ¬ (s.isAnimating = true ∨ n = s.currentPage) := by
    intro h
    rcases h with h | h
    · simp [hA] at h
    · exact hne h
  have hg2 : ¬ (n < 0 ∨ s.totalPages ≤ n) := by omega
  unfold goToPage
  rw [if_neg hg1, if_neg hg2]
  by_cases hd : s.currentPage < n <;>
    simp [hd, updateTOC, hA]

theorem goToPage_accepted_lookup (s : BookState) (n : Int)
    (hA : s.isAnimating = false) (hne : n ≠ s.currentPage)
    (h0 : 0 ≤ n) (h1 : n < s.totalPages) (i : Int) :
    listGetI (goToPage s n).pages i =
      if s.currentPage < n then
        (listGetI s.pages i).map
          (fun p => if s.currentPage ≤ i ∧ i < n then { p with flipped := true } else p)
      else
        (listGetI s.pages i).map
          (fun p => if n ≤ i ∧ i < s.currentPage then { p with flipped := false } else p) := by
  have hg1 : ¬ (s.isAnimating = true ∨ n = s.currentPage) := by
    intro h
    rcases h with h | h
    · simp [hA] at h
    · exact hne h
  have hg2 : ¬ (n < 0 ∨ s.totalPages ≤ n) := by omega
  unfold goToPage
  rw [if_neg hg1, if_neg hg2]
  by_cases hd : s.currentPage < n <;>
    simp [hd, updateTOC, listGetI_setFlippedRange]

/-! Run-to-completion projections of accepted single-step requests. -/

theorem nextPage_run_proj (s : BookState) (hA : s.isAnimating = false)
    (hc : s.currentPage < s.totalPages - 1) (hp : s.pending = []) :
    (fireFirst (nextPage s)).currentPage = s.currentPage + 1
  ∧ (fireFirst (nextPage s)).isAnimating = false
  ∧ (fireFirst (nextPage s)).pending = []
  ∧ (fireFirst (nextPage s)).pages.length = s.pages.length
  ∧ (fireFirst (nextPage s)).soundEnabled = s.soundEnabled
  ∧ (fireFirst (nextPage s)).animationsEnabled = s.animationsEnabled
  ∧ (fireFirst (nextPage s)).dustSpawned =
      (if s.animationsEnabled = true then s.dustSpawned + 15 else s.dustSpawned) := by
  rw [nextPage_eq_accepted s hA hc, hp]
  simp [fireFirst, fireEvent]

theorem prevPage_run_proj (s : BookState) (hA : s.isAnimating = false)
    (h0 : 0 < s.currentPage) (hp : s.pending = []) :
    (fireFirst (prevPage s)).currentPage = s.currentPage - 1
  ∧ (fireFirst (prevPage s)).isAnimating = false
  ∧ (fireFirst (prevPage s)).pending = []
  ∧ (fireFirst (prevPage s)).pages.length = s.pages.length
  ∧ (fireFirst (prevPage s)).soundEnabled = s.soundEnabled
  ∧ (fireFirst (prevPage s)).animationsEnabled = s.animationsEnabled := by
  rw [prevPage_eq_accepted s hA h0, hp]
  simp [fireFirst, fireEvent]

/-! Firing a concretely known timer queue. -/

theorem fireFirst_cons (s : BookState) (ev : TimerEvent) (rest : List TimerEvent)
    (h : s.pending = ev :: rest) :
    fireFirst s = fireEvent { s with pending := rest } ev := by
  unfold fireFirst
  split
  · rename_i heq
    rw [h] at heq
    exact absurd heq (by simp)
  · rename_i ev2 rest2 heq
    rw [h] at heq
    injection heq with he1 he2
    subst he1
    subst he2
    rfl

theorem listGetI_isSome {α : Type} (l : List α) (i : Int) (h0 : 0 ≤ i)
    (h1 : i < (l.length : Int)) : ∃ a, listGetI l i = some a := by
  unfold listGetI
  rw [if_neg (by omega)]
  have hs := listGetN_isSome l i.toNat (by omega)
  cases h : listGetN l i.toNat
  · rw [h] at hs
    simp at hs
  · exact ⟨_, rfl⟩

/-! Unconditional projections of the entry points needed for the
sound-state invariant. -/

@[simp] theorem nextPage_soundEnabled (s : BookState) :
    (nextPage s).soundEnabled = s.soundEnabled := by
  unfold nextPage
  split
  · rfl
  · simp

@[simp] theorem prevPage_soundEnabled (s : BookState) :
    (prevPage s).soundEnabled = s.soundEnabled := by
  unfold prevPage
  split
  · rfl
  · simp

@[simp] theorem goToPage_soundEnabled (s : BookState) (n : Int) :
    (goToPage s n).soundEnabled = s.soundEnabled := by
  unfold goToPage
  split
  · rfl
  · split
    · rfl
    · split <;> simp [updateTOC]

@[simp] theorem fireGoToReveal_soundEnabled (s : BookState) :
    (fireGoToReveal s).soundEnabled = s.soundEnabled := by
  unfold fireGoToReveal
  simp

@[simp] theorem fireFirst_soundEnabled (s : BookState) :
    (fireFirst s).soundEnabled = s.soundEnabled := by
  unfold fireFirst
  split
  · rfl
  · rename_i ev rest heq
    cases ev <;> simp [fireEvent]

theorem nextPage_soundsPlayed_of_disabled (s : BookState)
    (h : s.soundEnabled = false) :
    (nextPage s).soundsPlayed = s.soundsPlayed := by
  unfold nextPage
  split
  · rfl
  · simp [h]

theorem prevPage_soundsPlayed_of_disabled (s : BookState)
    (h : s.soundEnabled = false) :
    (prevPage s).soundsPlayed = s.soundsPlayed := by
  unfold prevPage
  split
  · rfl
  · simp [h]

theorem goToPage_soundsPlayed_of_disabled (s : BookState) (n : Int)
    (h : s.soundEnabled = false) :
    (goToPage s n).soundsPlayed = s.soundsPlayed := by
  unfold goToPage
  split
  · rfl
  · split
    · rfl
    · split <;> simp [updateTOC, h]

@[simp] theorem fireFirst_soundsPlayed (s : BookState) :
    (fireFirst s).soundsPlayed = s.soundsPlayed := by
  unfold fireFirst
  split
  · rfl
  · rename_i ev rest heq
    cases ev <;> simp [fireEvent, fireGoToReveal]

theorem stepEvent_soundEnabled (s : BookState) (ev : UiEvent) :
    (stepEvent s ev).soundEnabled =
      if isSoundToggle ev = true then !s.soundEnabled else s.soundEnabled := by
  cases ev <;> simp [stepEvent, isSoundToggle, toggleSound, toggleAnimations]

theorem stepEvent_soundsPlayed_of_disabled (s : BookState) (ev : UiEvent)
    (h : s.soundEnabled = false) :
    (stepEvent s ev).soundsPlayed = s.soundsPlayed := by
  cases ev with
  | next => exact nextPage_soundsPlayed_of_disabled s h
  | prev => exact prevPage_soundsPlayed_of_disabled s h
  | goTo n => exact goToPage_soundsPlayed_of_disabled s n h
  | fireTimer => simp [stepEvent]
  | soundToggle => rfl
  | animToggle => rfl

theorem countSoundToggles_cons (e : UiEvent) (evs : List UiEvent) :
    countSoundToggles (e :: evs)
      = (if isSoundToggle e = true then 1 else 0) + countSoundToggles evs := by
  unfold countSoundToggles
  rw [List.filter_cons]
  split <;> simp [Nat.add_comm]

theorem runEvents_soundEnabled (evs : List UiEvent) (s : BookState) :
    (runEvents s evs).soundEnabled =
      if countSoundToggles evs % 2 = 1 then !s.soundEnabled else s.soundEnabled := by
  induction evs generalizing s with
  | nil => simp [runEvents, countSoundToggles]
  | cons e evs ih =>
    have hrun : runEvents s (e :: evs) = runEvents (stepEvent s e) evs := rfl
    rw [hrun, ih (stepEvent s e), stepEvent_soundEnabled, countSoundToggles_cons]
    by_cases he : isSoundToggle e = true
    · by_cases hc : countSoundToggles evs % 2 = 1
      · have hm : (1 + countSoundToggles evs) % 2 = 0 := by omega
        simp [he, hm, hc]
      · have hm : (1 + countSoundToggles evs) % 2 = 1 := by omega
        simp [he, hm, hc]
    · have hm : ((if isSoundToggle e = true then 1 else 0) + countSoundToggles evs) % 2
          = countSoundToggles evs % 2 := by
        rw [if_neg he]
        omega
      rw [hm, if_neg he]

theorem runEvents_soundsPlayed_of_no_toggle (evs : List UiEvent) (s : BookState)
    (hs : s.soundEnabled = false) (h : countSoundToggles evs = 0) :
    (runEvents s evs).soundsPlayed = s.soundsPlayed := by
  induction evs generalizing s with
  | nil => rfl
  | cons e evs ih =>
    have hcons := countSoundToggles_cons e evs
    rw [h] at hcons
    have he : isSoundToggle e = false := by
      by_cases h2 : isSoundToggle e = true
      · rw [if_pos h2] at hcons
        omega
      · revert h2
        cases isSoundToggle e <;> simp
    have hcnt : countSoundToggles evs = 0 := by
      rw [if_neg (by simp [he])] at hcons
      omega
    have hse : (stepEvent s e).soundEnabled = false := by
      rw [stepEvent_soundEnabled, if_neg (by simp [he]), hs]
    have hrun : runEvents s (e :: evs) = runEvents (stepEvent s e) evs := rfl
    rw [hrun, ih (stepEvent s e) hse hcnt,
      stepEvent_soundsPlayed_of_disabled s e hs]

/-! Invariant preservation for run-to-completion navigation requests. -/

theorem runNavOp_inv (s : BookState) (op : NavOp)
    (hp : s.pending = []) (h0 : 0 ≤ s.currentPage)
    (h1 : s.currentPage ≤ s.totalPages - 1) :
    (runNavOp s op).pending = []
  ∧ (runNavOp s op).totalPages = s.totalPages
  ∧ 0 ≤ (runNavOp s op).currentPage
  ∧ (runNavOp s op).currentPage ≤ (runNavOp s op).totalPages - 1 := by
  cases op with
  | next =>
    by_cases hacc : s.isAnimating = false ∧ s.currentPage < s.totalPages - 1
    · obtain ⟨hA, hc⟩ := hacc
      have h := nextPage_run_proj s hA hc hp
      have htp : (fireFirst (nextPage s)).totalPages = s.totalPages := by
        simp [BookState.totalPages, h.2.2.2.1]
      refine ⟨h.2.2.1, htp, ?_, ?_⟩
      · show 0 ≤ (fireFirst (nextPage s)).currentPage
        rw [h.1]
        omega
      · show (fireFirst (nextPage s)).currentPage ≤ (fireFirst (nextPage s)).totalPages - 1
        rw [h.1, htp]
        omega
    · have hrej : s.isAnimating = true ∨ s.totalPages - 1 ≤ s.currentPage := by
        by_cases hA : s.isAnimating = true
        · exact Or.inl hA
        · have hA2 : s.isAnimating = false := by
            revert hA
            cases s.isAnimating <;> simp
          right
          by_contra hlt
          exact hacc ⟨hA2, by omega⟩
      have heq : runNavOp s NavOp.next = s := by
        show fireFirst (nextPage s) = s
        rw [nextPage_rejected s hrej, fireFirst_empty s hp]
      rw [heq]
      exact ⟨hp, rfl, h0, h1⟩
  | prev =>
    by_cases hacc : s.isAnimating = false ∧ 0 < s.currentPage
    · obtain ⟨hA, hc⟩ := hacc
      have h := prevPage_run_proj s hA hc hp
      have htp : (fireFirst (prevPage s)).totalPages = s.totalPages := by
        simp [BookState.totalPages, h.2.2.2.1]
      refine ⟨h.2.2.1, htp, ?_, ?_⟩
      · show 0 ≤ (fireFirst (prevPage s)).currentPage
        rw [h.1]
        omega
      · show (fireFirst (prevPage s)).currentPage ≤ (fireFirst (prevPage s)).totalPages - 1
        rw [h.1, htp]
        omega
    · have hrej : s.isAnimating = true ∨ s.currentPage ≤ 0 := by
        by_cases hA : s.isAnimating = true
        · exact Or.inl hA
        · have hA2 : s.isAnimating = false := by
            revert hA
            cases s.isAnimating <;> simp
          right
          by_contra hlt
          exact hacc ⟨hA2, by omega⟩
      have heq : runNavOp s NavOp.prev = s := by
        show fireFirst (prevPage s) = s
        rw [prevPage_rejected s hrej, fireFirst_empty s hp]
      rw [heq]
      exact ⟨hp, rfl, h0, h1⟩

theorem runNavOps_inv (s : BookState) (ops : List NavOp)
    (hp : s.pending = []) (h0 : 0 ≤ s.currentPage)
    (h1 : s.currentPage ≤ s.totalPages - 1) :
    (runNavOps s ops).pending = []
  ∧ 0 ≤ (runNavOps s ops).currentPage
  ∧ (runNavOps s ops).currentPage ≤ (runNavOps s ops).totalPages - 1 := by
  induction ops generalizing s with
  | nil => exact ⟨hp, h0, h1⟩
  | cons op ops ih =>
    have h := runNavOp_inv s op hp h0 h1
    have hrun : runNavOps s (op :: ops) = runNavOps (runNavOp s op) ops := rfl
    rw [hrun]
    exact ih (runNavOp s op) h.1 h.2.2.1 h.2.2.2

/-! Lookup of the turned page element after the `prevPage` completion
callback. -/

theorem firePrevDone_lookup_unflipping (s : BookState) (idx i : Int) :
    (listGetI (firePrevDone s idx).pages i).map PageEl.unflipping
      = (listGetI (modifyAtI s.pages idx (fun p => { p with unflipping := false })) i).map
          PageEl.unflipping := by
  unfold firePrevDone
  simp only [updateNavigation_eq, updateTOC]
  rw [revealPageContent_lookup_unflipping]

/-- C1: for every sequence of `nextPage`/`prevPage` requests, each run to
completion, `currentPage` stays within `[0, totalPages - 1]`; moreover
`nextPage` at the last page and `prevPage` at page 0 return the whole
state unchanged — there is no wraparound. -/
theorem claim1_nav_in_bounds_no_wrap (s : BookState) (ops : List NavOp)
    (hp : s.pending = []) (h0 : 0 ≤ s.currentPage)
    (h1 : s.currentPage ≤ s.totalPages - 1) :
    (0 ≤ (runNavOps s ops).currentPage
      ∧ (runNavOps s ops).currentPage ≤ (runNavOps s ops).totalPages - 1)
  ∧ (s.currentPage = s.totalPages - 1 → nextPage s = s)
  ∧ (s.currentPage = 0 → prevPage s = s) := by
  have h := runNavOps_inv s ops hp h0 h1
  refine ⟨⟨h.2.1, h.2.2⟩, ?_, ?_⟩
  · intro hlast
    exact nextPage_rejected s (Or.inr (by omega))
  · intro hfirst
    exact prevPage_rejected s (Or.inr (by omega))

/-- Witness for C1: the six-page book under the request sequence next,
next, prev. -/
theorem claim1_witness :
    (0 ≤ (runNavOps demoState [NavOp.next, NavOp.next, NavOp.prev]).currentPage
      ∧ (runNavOps demoState [NavOp.next, NavOp.next, NavOp.prev]).currentPage
          ≤ (runNavOps demoState [NavOp.next, NavOp.next, NavOp.prev]).totalPages - 1)
  ∧ (demoState.currentPage = demoState.totalPages - 1 →
      nextPage demoState = demoState)
  ∧ (demoState.currentPage = 0 → prevPage demoState = demoState) :=
  claim1_nav_in_bounds_no_wrap demoState [NavOp.next, NavOp.next, NavOp.prev]
    (by decide) (by decide) (by decide)

/-- C2: while `isAnimating` is true, every navigation entry point returns
without mutating `currentPage` or any other state, so at most one
transition is in flight at any instant. -/
theorem claim2_animating_rejects_all (s : BookState) (h : s.isAnimating = true) :
    nextPage s = s ∧ prevPage s = s ∧ ∀ n : Int, goToPage s n = s :=
  ⟨nextPage_rejected s (Or.inl h), prevPage_rejected s (Or.inl h),
    fun n => goToPage_rejected_guard s n (Or.inl h)⟩

/-- Witness for C2: the six-page book mid-transition, with jump target 3. -/
theorem claim2_witness :
    nextPage busyState = busyState ∧ prevPage busyState = busyState
  ∧ goToPage busyState 3 = busyState :=
  ⟨(claim2_animating_rejects_all busyState (by decide)).1,
   (claim2_animating_rejects_all busyState (by decide)).2.1,
   (claim2_animating_rejects_all busyState (by decide)).2.2 3⟩

/-- C6 counterexample: on the six-page book, a qualifying
scroll-at-bottom wheel event arms nothing, and a second identical
qualifying event in the same direction still emits no
`requestNext`/`requestPrevious` and leaves the state untouched — the
claimed two-hit emission never happens. -/
theorem claim6_counterexample :
    (handleScroll demoState wheelAtBottom).2 = none
  ∧ (handleScroll (handleScroll demoState wheelAtBottom).1 wheelAtBottom).2 = none
  ∧ (handleScroll (handleScroll demoState wheelAtBottom).1 wheelAtBottom).1
      = demoState := by
  decide

/-- C6 amended: `handleScroll` performs no navigation at all — every wheel
event, boundary or not, leaves the state unchanged and emits no
navigation command (wheel events inside `.page-content` are left to
native scrolling; all others are ignored). -/
theorem claim6_scroll_never_navigates (s : BookState) (e : WheelEventRec) :
    handleScroll s e = (s, none) := by
  unfold handleScroll
  split <;> rfl

/-- C8: from any interior page k (0 < k < totalPages - 1) in the idle
state, an accepted `nextPage` run to completion followed by an accepted
`prevPage` run to completion returns `currentPage` to k. -/
theorem claim8_round_trip (s : BookState) (hp : s.pending = [])
    (hA : s.isAnimating = false) (h0 : 0 < s.currentPage)
    (h1 : s.currentPage < s.totalPages - 1) :
    (runNavOps s [NavOp.next, NavOp.prev]).currentPage = s.currentPage := by
  have hn := nextPage_run_proj s hA h1 hp
  have h0t : 0 < (fireFirst (nextPage s)).currentPage := by
    rw [hn.1]
    omega
  have hpv := prevPage_run_proj (fireFirst (nextPage s)) hn.2.1 h0t hn.2.2.1
  have hrfl : runNavOps s [NavOp.next, NavOp.prev]
      = fireFirst (prevPage (fireFirst (nextPage s))) := rfl
  rw [hrfl, hpv.1, hn.1]
  omega

/-- Witness for C8: the six-page book on page 2. -/
theorem claim8_witness :
    (runNavOps midState [NavOp.next, NavOp.prev]).currentPage
      = midState.currentPage :=
  claim8_round_trip midState (by decide) (by decide) (by decide) (by decide)

/-- C9: `revealPageContent` called with any index outside
`[0, totalPages - 1]` is a safe no-op: the page lookup yields nothing, so
no fragment markers change and no reveal timers are scheduled. -/
theorem claim9_reveal_out_of_range_noop (s : BookState) (i : Int)
    (h : i < 0 ∨ s.totalPages ≤ i) : revealPageContent s i = s := by
  unfold revealPageContent
  rw [listGetI_none_of_out s.pages i h]

/-- Witness for C9: index 99 on the six-page book. -/
theorem claim9_witness : revealPageContent demoState 99 = demoState :=
  claim9_reveal_out_of_range_noop demoState 99 (by decide)

/-- Running a reveal timer followed by a `nextPage` completion timer
increments `currentPage` once. -/
theorem run_two_timers_currentPage (s : BookState) (idx : Int) (d1 d2 : Nat)
    (h : s.pending = [TimerEvent.goToReveal d1, TimerEvent.nextDone idx d2]) :
    (fireFirst (fireFirst s)).currentPage = s.currentPage + 1 := by
  rw [fireFirst_cons s (TimerEvent.goToReveal d1) [TimerEvent.nextDone idx d2] h]
  simp only [fireEvent]
  have h2 : (fireGoToReveal { s with pending := [TimerEvent.nextDone idx d2] }).pending
      = [TimerEvent.nextDone idx d2] := by
    unfold fireGoToReveal
    simp
  rw [fireFirst_cons _ (TimerEvent.nextDone idx d2) [] h2]
  simp only [fireEvent]
  simp [fireGoToReveal]

/-- C3 counterexample: on the six-page book, an accepted
`goToPage demoState 4` leaves `isAnimating` false, so an immediately
following `nextPage` is not rejected — it mutates state — and once the
pending timers fire `currentPage` ends at 5, not 4. -/
theorem claim3_counterexample :
    (goToPage demoState 4).isAnimating = false
  ∧ nextPage (goToPage demoState 4) ≠ goToPage demoState 4
  ∧ (fireFirst (fireFirst (nextPage (goToPage demoState 4)))).currentPage = 5 := by
  decide

/-- C3 amended: `nextPage` and `prevPage` set `isAnimating` synchronously
before scheduling their completion timers, but `goToPage` never sets
`isAnimating`; hence a `nextPage` issued immediately after an accepted
`goToPage s n` with n below the last page is itself accepted — it has
side effects, and after the pending timers fire `currentPage` is n + 1,
not n. -/
theorem claim3_goto_sets_no_guard (s : BookState) (n : Int)
    (hA : s.isAnimating = false) (hp : s.pending = [])
    (hne : n ≠ s.currentPage) (h0 : 0 ≤ n) (h1 : n < s.totalPages - 1) :
    (s.currentPage < s.totalPages - 1 → (nextPage s).isAnimating = true)
  ∧ (0 < s.currentPage → (prevPage s).isAnimating = true)
  ∧ (goToPage s n).isAnimating = false
  ∧ nextPage (goToPage s n) ≠ goToPage s n
  ∧ (fireFirst (fireFirst (nextPage (goToPage s n)))).currentPage = n + 1 := by
  have gp := goToPage_accepted_proj s n hA hne h0 (by omega)
  have htp : (goToPage s n).totalPages = s.totalPages := by
    simp [BookState.totalPages, gp.2.2.2.1]
  have gc : (goToPage s n).currentPage < (goToPage s n).totalPages - 1 := by
    rw [gp.1, htp]
    omega
  have hnx := nextPage_eq_accepted (goToPage s n) gp.2.1 gc
  have hpend : (nextPage (goToPage s n)).pending
      = [TimerEvent.goToReveal 400,
         TimerEvent.nextDone (goToPage s n).currentPage
           (if (goToPage s n).animationsEnabled = true then 800 else 0)] := by
    rw [hnx]
    show (goToPage s n).pending
        ++ [TimerEvent.nextDone (goToPage s n).currentPage
             (if (goToPage s n).animationsEnabled = true then 800 else 0)] = _
    rw [gp.2.2.1, hp]
    rfl
  refine ⟨?_, ?_, gp.2.1, ?_, ?_⟩
  · intro hc
    rw [nextPage_eq_accepted s hA hc]
  · intro hc
    rw [prevPage_eq_accepted s hA hc]
  · intro heq
    have h2 : (nextPage (goToPage s n)).isAnimating = true := by
      rw [hnx]
    rw [heq, gp.2.1] at h2
    exact absurd h2 (by simp)
  · have hrun2 := run_two_timers_currentPage (nextPage (goToPage s n))
      (goToPage s n).currentPage 400
      (if (goToPage s n).animationsEnabled = true then 800 else 0) hpend
    rw [hrun2]
    have hcp : (nextPage (goToPage s n)).currentPage = (goToPage s n).currentPage := by
      rw [hnx]
    rw [hcp, gp.1]

/-- Witness for C3 (amended) at the six-page book with jump target 4. -/
theorem claim3_witness :
    (nextPage demoState).isAnimating = true
  ∧ (goToPage demoState 4).isAnimating = false
  ∧ nextPage (goToPage demoState 4) ≠ goToPage demoState 4
  ∧ (fireFirst (fireFirst (nextPage (goToPage demoState 4)))).currentPage = 4 + 1 := by
  have h := claim3_goto_sets_no_guard demoState 4 (by decide) (by decide)
    (by decide) (by decide) (by decide)
  exact ⟨h.1 (by decide), h.2.2.1, h.2.2.2.1, h.2.2.2.2⟩

/-- C4 counterexample: on the six-page book resting on page 2, the
accepted `prevPage` has already decremented `currentPage` to 1
synchronously while the transition is still in flight (its completion
timer is pending) — the decrement does not wait for completion. -/
theorem claim4_counterexample :
    (prevPage midState).currentPage = 1
  ∧ (prevPage midState).isAnimating = true
  ∧ (prevPage midState).pending ≠ [] := by
  decide

/-- C4 amended: `prevPage`, accepted only when `currentPage > 0` and not
animating, decrements `currentPage` synchronously at acceptance (before
the completion timer, not on completion); it tags the page that is
becoming current (index `currentPage - 1`) with the backward-turn class
`unflipping` (and drops `flipped`) for the duration of the transition,
and the completion callback removes that tag and keeps `currentPage` at
the decremented value. -/
theorem claim4_prev_behavior (s : BookState) (hA : s.isAnimating = false)
    (h0 : 0 < s.currentPage) (h1 : s.currentPage ≤ s.totalPages - 1)
    (hp : s.pending = []) :
    (prevPage s).currentPage = s.currentPage - 1
  ∧ (prevPage s).isAnimating = true
  ∧ (listGetI (prevPage s).pages (s.currentPage - 1)).map PageEl.unflipping
      = some true
  ∧ (listGetI (prevPage s).pages (s.currentPage - 1)).map PageEl.flipped
      = some false
  ∧ (listGetI (fireFirst (prevPage s)).pages (s.currentPage - 1)).map
      PageEl.unflipping = some false
  ∧ (fireFirst (prevPage s)).currentPage = s.currentPage - 1 := by
  have hkey := prevPage_eq_accepted s hA h0
  have hlen : s.currentPage - 1 < (s.pages.length : Int) := by
    have h2 := h1
    simp only [BookState.totalPages] at h2
    omega
  obtain ⟨p, hpg⟩ := listGetI_isSome s.pages (s.currentPage - 1) (by omega) hlen
  have hrun := prevPage_run_proj s hA h0 hp
  refine ⟨?_, ?_, ?_, ?_, ?_, hrun.1⟩
  · rw [hkey]
  · rw [hkey]
  · rw [hkey]
    show (listGetI (modifyAtI s.pages (s.currentPage - 1)
        (fun p => { p with unflipping := true, flipped := false }))
        (s.currentPage - 1)).map PageEl.unflipping = some true
    rw [listGetI_modifyAtI_self, hpg]
    rfl
  · rw [hkey]
    show (listGetI (modifyAtI s.pages (s.currentPage - 1)
        (fun p => { p with unflipping := true, flipped := false }))
        (s.currentPage - 1)).map PageEl.flipped = some false
    rw [listGetI_modifyAtI_self, hpg]
    rfl
  · have hpend : (prevPage s).pending
        = TimerEvent.prevDone (s.currentPage - 1)
            (if s.animationsEnabled = true then 800 else 0) :: [] := by
      rw [hkey]
      show s.pending
          ++ [TimerEvent.prevDone (s.currentPage - 1)
               (if s.animationsEnabled = true then 800 else 0)] = _
      rw [hp]
      rfl
    rw [fireFirst_cons _ _ _ hpend]
    simp only [fireEvent]
    rw [firePrevDone_lookup_unflipping, listGetI_modifyAtI_self]
    show ((listGetI (prevPage s).pages (s.currentPage - 1)).map
        (fun p => { p with unflipping := false })).map PageEl.unflipping = some false
    rw [hkey]
    show ((listGetI (modifyAtI s.pages (s.currentPage - 1)
        (fun p => { p with unflipping := true, flipped := false }))
        (s.currentPage - 1)).map (fun p => { p with unflipping := false })).map
        PageEl.unflipping = some false
    rw [listGetI_modifyAtI_self, hpg]
    rfl

/-- Witness for C4 (amended) at the six-page book on page 2. -/
theorem claim4_witness :
    (prevPage midState).currentPage = midState.currentPage - 1
  ∧ (prevPage midState).isAnimating = true
  ∧ (listGetI (prevPage midState).pages (midState.currentPage - 1)).map
      PageEl.unflipping = some true
  ∧ (listGetI (prevPage midState).pages (midState.currentPage - 1)).map
      PageEl.flipped = some false
  ∧ (listGetI (fireFirst (prevPage midState)).pages
      (midState.currentPage - 1)).map PageEl.unflipping = some false
  ∧ (fireFirst (prevPage midState)).currentPage = midState.currentPage - 1 :=
  claim4_prev_behavior midState (by decide) (by decide) (by decide) (by decide)

/-- C5 counterexample: on the six-page book, `goToPage demoState 4` has
already committed `currentPage = 4` synchronously while its single
scheduled timer is still pending — the commit does not wait for the
timer. -/
theorem claim5_counterexample :
    (goToPage demoState 4).currentPage = 4
  ∧ (goToPage demoState 4).pending = [TimerEvent.goToReveal 400] := by
  decide

/-- C5 amended: `goToPage n`, accepted only when not animating, with a
valid index n different from `currentPage`, marks the whole affected
range in one batch (forward: `flipped` added on `[currentPage, n)`;
backward: `flipped` removed on `[n, currentPage)`), schedules a single
400ms timer, and commits `currentPage = n` synchronously before that
timer, together with the navigation/TOC updates; only the reveal of the
new page runs after the timer fires. -/
theorem claim5_goto_behavior (s : BookState) (n : Int)
    (hA : s.isAnimating = false) (hne : n ≠ s.currentPage)
    (h0 : 0 ≤ n) (h1 : n < s.totalPages)
    (hc0 : 0 ≤ s.currentPage) (hc1 : s.currentPage < s.totalPages)
    (hp : s.pending = []) :
    (goToPage s n).currentPage = n
  ∧ (goToPage s n).isAnimating = false
  ∧ (goToPage s n).pending = [TimerEvent.goToReveal 400]
  ∧ (∀ i : Int, s.currentPage ≤ i → i < n →
      (listGetI (goToPage s n).pages i).map PageEl.flipped = some true)
  ∧ (∀ i : Int, n ≤ i → i < s.currentPage →
      (listGetI (goToPage s n).pages i).map PageEl.flipped = some false)
  ∧ (fireFirst (goToPage s n)).currentPage = n
  ∧ (fireFirst (goToPage s n)).isAnimating = false
  ∧ (fireFirst (goToPage s n)).pending = [] := by
  have gp := goToPage_accepted_proj s n hA hne h0 h1
  have hlook := goToPage_accepted_lookup s n hA hne h0 h1
  have hpend : (goToPage s n).pending = TimerEvent.goToReveal 400 :: [] := by
    rw [gp.2.2.1, hp]
    rfl
  refine ⟨gp.1, gp.2.1, by rw [hpend], ?_, ?_, ?_, ?_, ?_⟩
  · intro i hi1 hi2
    have hd : s.currentPage < n := by omega
    rw [hlook i, if_pos hd]
    have hlen : i < (s.pages.length : Int) := by
      have h2 := h1
      simp only [BookState.totalPages] at h2
      omega
    obtain ⟨p, hpg⟩ := listGetI_isSome s.pages i (by omega) hlen
    rw [hpg]
    simp [hi1, hi2]
  · intro i hi1 hi2
    have hd : ¬ (s.currentPage < n) := by omega
    rw [hlook i, if_neg hd]
    have hlen : i < (s.pages.length : Int) := by
      have h2 := hc1
      simp only [BookState.totalPages] at h2
      omega
    obtain ⟨p, hpg⟩ := listGetI_isSome s.pages i (by omega) hlen
    rw [hpg]
    simp [hi1, hi2]
  · rw [fireFirst_cons _ _ _ hpend]
    simp only [fireEvent]
    simp [fireGoToReveal, gp.1]
  · rw [fireFirst_cons _ _ _ hpend]
    simp only [fireEvent]
    simp [fireGoToReveal, gp.2.1]
  · rw [fireFirst_cons _ _ _ hpend]
    simp only [fireEvent]
    simp [fireGoToReveal]

/-- Witness for C5 (amended): the six-page book jumping from page 0 to
page 4; page 2 carries the forward flip tag. -/
theorem claim5_witness :
    (goToPage demoState 4).currentPage = 4
  ∧ (goToPage demoState 4).isAnimating = false
  ∧ (goToPage demoState 4).pending = [TimerEvent.goToReveal 400]
  ∧ (listGetI (goToPage demoState 4).pages 2).map PageEl.flipped = some true
  ∧ (fireFirst (goToPage demoState 4)).currentPage = 4
  ∧ (fireFirst (goToPage demoState 4)).pending = [] := by
  have h := claim5_goto_behavior demoState 4 (by decide) (by decide) (by decide)
    (by decide) (by decide) (by decide) (by decide)
  exact ⟨h.1, h.2.1, h.2.2.1, h.2.2.2.1 2 (by decide) (by decide),
    h.2.2.2.2.2.1, h.2.2.2.2.2.2.2⟩

/-- C7: with animations disabled, an accepted `nextPage` schedules its
completion callback with delay 0, `createDustParticles` spawns nothing,
and when the callback fires the page increment still commits. -/
theorem claim7_disabled_animations (s : BookState)
    (hAnim : s.animationsEnabled = false) (hA : s.isAnimating = false)
    (hc : s.currentPage < s.totalPages - 1) (hp : s.pending = []) :
    (nextPage s).pending = [TimerEvent.nextDone s.currentPage 0]
  ∧ createDustParticles s = s
  ∧ (nextPage s).dustSpawned = s.dustSpawned
  ∧ (fireFirst (nextPage s)).dustSpawned = s.dustSpawned
  ∧ (fireFirst (nextPage s)).currentPage = s.currentPage + 1
  ∧ (fireFirst (nextPage s)).isAnimating = false := by
  have hkey := nextPage_eq_accepted s hA hc
  have hrun := nextPage_run_proj s hA hc hp
  refine ⟨?_, ?_, ?_, ?_, hrun.1, hrun.2.1⟩
  · rw [hkey, hp]
    simp [hAnim]
  · unfold createDustParticles
    rw [if_pos hAnim]
  · rw [hkey]
    simp [hAnim]
  · rw [hrun.2.2.2.2.2.2]
    simp [hAnim]

/-- Witness for C7: the six-page book with animations turned off. -/
theorem claim7_witness :
    (nextPage quietState).pending
      = [TimerEvent.nextDone quietState.currentPage 0]
  ∧ createDustParticles quietState = quietState
  ∧ (nextPage quietState).dustSpawned = quietState.dustSpawned
  ∧ (fireFirst (nextPage quietState)).dustSpawned = quietState.dustSpawned
  ∧ (fireFirst (nextPage quietState)).currentPage = quietState.currentPage + 1
  ∧ (fireFirst (nextPage quietState)).isAnimating = false :=
  claim7_disabled_animations quietState (by decide) (by decide) (by decide)
    (by decide)

/-- C10: `soundEnabled` initializes to false, no navigation or timer event
changes it, `playPageFlipSound` is a no-op while it is false, and a trace
can only end with sound enabled — hence only then can a committed
transition play sound — if `toggleSound` occurred an odd number of
times; in particular a toggle-free trace plays no sound at all. -/
theorem claim10_sound_off_by_default (pages0 : List PageEl) (sp : Bool)
    (evs : List UiEvent) (s : BookState) (ev : UiEvent) :
    (initState pages0 sp).soundEnabled = false
  ∧ (isSoundToggle ev = false → (stepEvent s ev).soundEnabled = s.soundEnabled)
  ∧ (s.soundEnabled = false → playPageFlipSound s = s)
  ∧ (countSoundToggles evs = 0 →
      (runEvents (initState pages0 sp) evs).soundsPlayed = 0)
  ∧ ((runEvents (initState pages0 sp) evs).soundEnabled = true →
      countSoundToggles evs % 2 = 1) := by
  refine ⟨rfl, ?_, ?_, ?_, ?_⟩
  · intro h
    rw [stepEvent_soundEnabled, if_neg (by simp [h])]
  · intro h
    unfold playPageFlipSound
    rw [if_neg (by simp [h])]
  · intro h
    exact runEvents_soundsPlayed_of_no_toggle evs (initState pages0 sp) rfl h
  · intro h
    rw [runEvents_soundEnabled] at h
    by_cases hc : countSoundToggles evs % 2 = 1
    · exact hc
    · rw [if_neg hc] at h
      simp [initState] at h

/-- Witness for C10: a two-page book, one navigation request and its
timer; no sound plays. -/
theorem claim10_witness :
    (initState [blankPage, blankPage] true).soundEnabled = false
  ∧ (stepEvent demoState UiEvent.next).soundEnabled = demoState.soundEnabled
  ∧ playPageFlipSound demoState = demoState
  ∧ (runEvents (initState [blankPage, blankPage] true)
      [UiEvent.next, UiEvent.fireTimer]).soundsPlayed = 0 := by
  have h := claim10_sound_off_by_default [blankPage, blankPage] true
    [UiEvent.next, UiEvent.fireTimer] demoState UiEvent.next
  exact ⟨h.1, h.2.1 (by decide), h.2.2.1 (by decide), h.2.2.2.1 (by decide)⟩
